import Mathlib

/-!
Shallow embedding of the Arduino firmware in `HW/Arduino/include/functions.h`
(line framer, JSON command dispatch, DC-motor and LED drivers, DHT22 sensor
sampling and the periodic telemetry scheduler), together with proofs of the
specified properties.

External collaborators (the ArduinoJson deserializer, the DHT22 driver, the
pin/PWM outputs, `millis()` and `freeMemory()`) are modelled as inputs:
a command line arrives either as a parse failure or as the parsed flat JSON
object, a DHT reading is `Option ℚ` (`none` plays the role of NaN), and the
clock and free-memory values are parameters.
-/

namespace Firmware

/-- `BUFFER_SIZE` from the source: the capacity of `inputBuffer`. -/
def BUFFER_SIZE : Nat := 256

/-- One JSON value as ArduinoJson's variant exposes it to this sketch:
null (absent key), integer, or string. -/
inductive JsonVal
  | jnull
  | jint (n : Int)
  | jstr (s : String)
deriving DecidableEq, Repr

/-- A parsed flat JSON object: the association list of its members
(ArduinoJson's `operator[]` returns the first member with the key). -/
def JsonDoc : Type := List (String × JsonVal)

/-- `const char* x = doc[key]`: a string member converts to its pointer,
anything else (including an absent key) converts to the null pointer,
modelled as `none`. -/
def getStr (doc : JsonDoc) (key : String) : Option String :=
  match List.lookup key doc with
  | some (.jstr s) => some s
  | _ => none

/-- `int x = doc[key]`: an integer member converts to its value, an absent
member (null variant) converts to `0`. -/
def getInt (doc : JsonDoc) (key : String) : Int :=
  match List.lookup key doc with
  | some (.jint n) => n
  | _ => 0

/-- The `SensorData` struct of the source (`temperature`/`humidity` are
`float` in C, modelled as ℚ; `timestamp` is `unsigned long`). -/
structure SensorData where
  temperature : ℚ
  humidity : ℚ
  motorSpeed : Int
  motorRunning : Bool
  timestamp : Nat
deriving DecidableEq, Repr

/-- Observable driver-pin state: `MOTOR_PIN1`/`MOTOR_PIN2` levels, the
`MOTOR_ENABLE` PWM duty, and the last value written to LED pin 13
(`none` before any `setLED`). -/
structure PinState where
  motorPin1 : Bool
  motorPin2 : Bool
  motorEnablePwm : Int
  led13 : Option Int
deriving DecidableEq, Repr

/-- The device state: the global `sensorData` record plus the pin outputs. -/
structure DeviceState where
  sensorData : SensorData
  pins : PinState
deriving DecidableEq, Repr

/-- Arduino's `constrain(amt, low, high)` macro. -/
def constrain (x lo hi : Int) : Int :=
  if x < lo then lo else if x > hi then hi else x

/-- `stopMotor()`: both drive pins LOW, PWM 0, speed 0, running flag false. -/
def stopMotor (st : DeviceState) : DeviceState :=
  { st with
    pins := { st.pins with motorPin1 := false, motorPin2 := false, motorEnablePwm := 0 }
    sensorData := { st.sensorData with motorSpeed := 0, motorRunning := false } }

/-- `setMotor(speed, direction)`: clamp the speed to `[0, 255]`; direction 0
stops the motor; direction 1 drives forward (PIN1 HIGH, PIN2 LOW); any other
direction drives reverse (PIN1 LOW, PIN2 HIGH); then PWM and state update. -/
def setMotor (speed direction : Int) (st : DeviceState) : DeviceState :=
  let speed := constrain speed 0 255
  if direction = 0 then stopMotor st
  else
    let pins :=
      if direction = 1 then
        { st.pins with motorPin1 := true, motorPin2 := false }
      else
        { st.pins with motorPin1 := false, motorPin2 := true }
    { st with
      pins := { pins with motorEnablePwm := speed }
      sensorData := { st.sensorData with
                        motorSpeed := speed
                        motorRunning := decide (speed > 0) } }

/-- `setLED(state)`: `digitalWrite(13, state)`. -/
def setLED (state : Int) (st : DeviceState) : DeviceState :=
  { st with pins := { st.pins with led13 := some state } }

/-- `readSensorData()`: each DHT22 reading independently becomes the fresh
value, or the sentinel `-999` when the reading is NaN (`none`); the
timestamp becomes `millis()`. Motor fields are untouched. -/
def readSensorData (dhtTemp dhtHum : Option ℚ) (now : Nat) (st : DeviceState) :
    DeviceState :=
  let t : ℚ := match dhtTemp with | none => -999 | some v => v
  let h : ℚ := match dhtHum with | none => -999 | some v => v
  { st with sensorData := { st.sensorData with
                              temperature := t, humidity := h, timestamp := now } }

/-- The JSON record `sendStatus()` serializes. -/
structure StatusRecord where
  uptime : Nat
  free_memory : Int
  arduino_ready : Bool
  dht22_connected : Bool
  motor_speed : Int
  motor_running : Bool
deriving DecidableEq, Repr

/-- `sendStatus()`: composes the status record;
`dht22_connected = (sensorData.temperature != -999 && sensorData.humidity != -999)`. -/
def sendStatus (now : Nat) (freeMem : Int) (st : DeviceState) : StatusRecord :=
  { uptime := now
    free_memory := freeMem
    arduino_ready := true
    dht22_connected := decide (st.sensorData.temperature ≠ -999 ∧ st.sensorData.humidity ≠ -999)
    motor_speed := st.sensorData.motorSpeed
    motor_running := st.sensorData.motorRunning }

/-- One unit written to the serial output: an ack/error line, a serialized
sensor-data record (`sendSensorData()`), or a serialized status record. -/
inductive Output
  | msg (s : String)
  | sensorData (d : SensorData)
  | status (r : StatusRecord)
deriving DecidableEq, Repr

/-- Environment an operation runs in: the DHT22 readings it would sample,
`millis()`, and `freeMemory()`. -/
structure Env where
  dhtTemp : Option ℚ
  dhtHum : Option ℚ
  now : Nat
  freeMem : Int

/-- A received line after the ArduinoJson deserializer ran on it:
either a `DeserializationError` or the parsed document. -/
inductive CmdInput
  | parseFailed
  | parsed (doc : JsonDoc)

def errParseMsg : String := "\x7b\"error\": \"JSON parsing failed\"\x7d"
def errUnknownMsg : String := "\x7b\"error\": \"Unknown command\"\x7d"
def ackLedMsg : String := "\x7b\"response\": \"LED state changed\"\x7d"
def ackMotorMsg : String := "\x7b\"response\": \"Motor state changed\"\x7d"
def ackStopMsg : String := "\x7b\"response\": \"Motor stopped\"\x7d"

/-- `processCommand(command)`: on a parse error, print the parse-error line
and return with no state change. Otherwise read `doc["command"]` as a
C string and `strcmp` it down the dispatch chain. When `doc["command"]` is
absent or not a string the source passes the null pointer to `strcmp`,
which is undefined behavior: that case is the `none` result. -/
def processCommand (env : Env) (input : CmdInput) (st : DeviceState) :
    Option (DeviceState × List Output) :=
  match input with
  | .parseFailed => some (st, [.msg errParseMsg])
  | .parsed doc =>
    match getStr doc "command" with
    | none => none
    | some cmdType =>
      if cmdType = "get_sensor_data" then
        let st := readSensorData env.dhtTemp env.dhtHum env.now st
        some (st, [.sensorData st.sensorData])
      else if cmdType = "set_led" then
        some (setLED (getInt doc "state") st, [.msg ackLedMsg])
      else if cmdType = "set_motor" then
        some (setMotor (getInt doc "speed") (getInt doc "direction") st, [.msg ackMotorMsg])
      else if cmdType = "stop_motor" then
        some (stopMotor st, [.msg ackStopMsg])
      else if cmdType = "get_status" then
        some (st, [.status (sendStatus env.now env.freeMem st)])
      else
        some (st, [.msg errUnknownMsg])

/-- `setup()` as far as the device state goes: stop the motor, then zero the
sensor record and stamp it with `millis()`. -/
def setup (now : Nat) : DeviceState :=
  let st : DeviceState :=
    { sensorData := ⟨0, 0, 0, false, 0⟩
      pins := { motorPin1 := false, motorPin2 := false, motorEnablePwm := 0, led13 := none } }
  let st := stopMotor st
  { st with sensorData :=
      { temperature := 0, humidity := 0, motorSpeed := 0, motorRunning := false
        timestamp := now } }

/-- The line framer's state: the first `bufferIndex` cells of `inputBuffer`;
the write cursor is the list's length. -/
structure Framer where
  buf : List Char
deriving DecidableEq, Repr

/-- One byte of `loop()`'s receive branch: a newline terminates and emits the
accumulated line and resets the cursor; any other byte is appended while
`bufferIndex < BUFFER_SIZE - 1` and silently dropped otherwise. -/
def feed (c : Char) (f : Framer) : Framer × Option (List Char) :=
  if c = '\n' then (⟨[]⟩, some f.buf)
  else if f.buf.length < BUFFER_SIZE - 1 then (⟨f.buf ++ [c]⟩, none)
  else (f, none)

/-- Feed a whole byte sequence, keeping only the framer state. -/
def feedAll (cs : List Char) (f : Framer) : Framer :=
  cs.foldl (fun f c => (feed c f).1) f

/-- `unsigned long` modulus: `2 ^ 32`. -/
def UINT32_MOD : Nat := 4294967296

/-- C unsigned 32-bit subtraction `a - b` (the arithmetic of
`millis() - lastSendTime`). -/
def usub (a b : Nat) : Nat :=
  (a % UINT32_MOD + (UINT32_MOD - b % UINT32_MOD)) % UINT32_MOD

/-- The parsed form of the line
`set_motor`, speed 300, direction 1. -/
def docSetMotor300 : JsonDoc :=
  [("command", .jstr "set_motor"), ("speed", .jint 300), ("direction", .jint 1)]

/-- A well-formed document with no `command` member. -/
def docNoCommand : JsonDoc := [("state", .jint 1)]

/-- A well-formed `set_led` command with the required `state` field missing. -/
def docSetLedNoState : JsonDoc := [("command", .jstr "set_led")]

/-- The parsed form of the line
`set_motor`, speed 100, direction 0. -/
def docSetMotorDir0 : JsonDoc :=
  [("command", .jstr "set_motor"), ("speed", .jint 100), ("direction", .jint 0)]

/-- The specified DeviceState invariant: the running flag mirrors a positive
speed and the speed is clamped to `[0, 255]`. -/
def Inv (st : DeviceState) : Prop :=
  st.sensorData.motorRunning = decide (st.sensorData.motorSpeed > 0) ∧
  0 ≤ st.sensorData.motorSpeed ∧ st.sensorData.motorSpeed ≤ 255

/-- The telemetry scheduler's state: the static `lastSendTime`. -/
structure TelemetrySched where
  lastSendTime : Nat
deriving DecidableEq, Repr

/-- The periodic branch of `loop()`: when `millis() - lastSendTime > 3000`
(unsigned arithmetic), sample, emit the sensor-data record and set
`lastSendTime = millis()`; otherwise do nothing. -/
def telemetryTick (env : Env) (st : DeviceState) (sched : TelemetrySched) :
    DeviceState × TelemetrySched × Option Output :=
  if usub env.now sched.lastSendTime > 3000 then
    let st := readSensorData env.dhtTemp env.dhtHum env.now st
    (st, ⟨env.now⟩, some (.sensorData st.sensorData))
  else (st, sched, none)

/-! ## Helper lemmas -/

theorem constrain_mem (x : Int) : 0 ≤ constrain x 0 255 ∧ constrain x 0 255 ≤ 255 := by
  unfold constrain
  split
  · omega
  · split
    · omega
    · omega

theorem inv_stopMotor (st : DeviceState) : Inv (stopMotor st) :=
  ⟨rfl, show (0 : Int) ≤ 0 by decide, show (0 : Int) ≤ 255 by decide⟩

theorem inv_setMotor (s d : Int) (st : DeviceState) : Inv (setMotor s d st) := by
  unfold setMotor
  split
  · exact inv_stopMotor st
  · exact ⟨rfl, (constrain_mem s).1, (constrain_mem s).2⟩

theorem inv_processCommand (env : Env) (input : CmdInput) (st st' : DeviceState)
    (out : List Output) (h : Inv st)
    (hp : processCommand env input st = some (st', out)) : Inv st' := by
  cases input with
  | parseFailed =>
      simp only [processCommand, Option.some.injEq, Prod.mk.injEq] at hp
      obtain ⟨rfl, -⟩ := hp
      exact h
  | parsed doc =>
      simp only [processCommand] at hp
      split at hp
      · exact Option.noConfusion hp
      · split at hp
        · simp only [Option.some.injEq, Prod.mk.injEq] at hp
          obtain ⟨rfl, -⟩ := hp
          exact h
        · split at hp
          · simp only [Option.some.injEq, Prod.mk.injEq] at hp
            obtain ⟨rfl, -⟩ := hp
            exact h
          · split at hp
            · simp only [Option.some.injEq, Prod.mk.injEq] at hp
              obtain ⟨rfl, -⟩ := hp
              exact inv_setMotor _ _ st
            · split at hp
              · simp only [Option.some.injEq, Prod.mk.injEq] at hp
                obtain ⟨rfl, -⟩ := hp
                exact inv_stopMotor st
              · split at hp
                · simp only [Option.some.injEq, Prod.mk.injEq] at hp
                  obtain ⟨rfl, -⟩ := hp
                  exact h
                · simp only [Option.some.injEq, Prod.mk.injEq] at hp
                  obtain ⟨rfl, -⟩ := hp
                  exact h

theorem feed_cursor_le (c : Char) (f : Framer)
    (h : f.buf.length ≤ BUFFER_SIZE - 1) :
    ((feed c f).1).buf.length ≤ BUFFER_SIZE - 1 := by
  unfold feed
  split
  · simp
  · split
    · simp only
      rw [List.length_append]
      simp only [List.length_cons, List.length_nil]
      omega
    · exact h

theorem feedAll_cursor_le (cs : List Char) (f : Framer)
    (h : f.buf.length ≤ BUFFER_SIZE - 1) :
    (feedAll cs f).buf.length ≤ BUFFER_SIZE - 1 := by
  induction cs generalizing f with
  | nil => exact h
  | cons c cs ih => exact ih (feed c f).1 (feed_cursor_le c f h)

/-! ## Claim theorems -/

/-- C1: the invariant `motor_running = (motor_speed > 0)` together with
`0 ≤ motor_speed ≤ 255` holds after initialization (`setup`) and is preserved
by `setMotor` with any speed and direction, by `stopMotor`, by the sample step
`readSensorData`, and by dispatch (`processCommand`) of any input line,
well-formed or malformed, whenever dispatch completes with a result. -/
theorem c1_motor_invariant :
    (∀ now, Inv (setup now)) ∧
    (∀ s d st, Inv (setMotor s d st)) ∧
    (∀ st, Inv (stopMotor st)) ∧
    (∀ t h now st, Inv st → Inv (readSensorData t h now st)) ∧
    (∀ env input st st' out, Inv st →
        processCommand env input st = some (st', out) → Inv st') :=
  ⟨fun _ => ⟨rfl, show (0 : Int) ≤ 0 by decide, show (0 : Int) ≤ 255 by decide⟩,
   fun s d st => inv_setMotor s d st,
   fun st => inv_stopMotor st,
   fun _ _ _ _ h => h,
   fun env input st st' out h hp => inv_processCommand env input st st' out h hp⟩

/-- Witness for C1: the invariant-preservation conjuncts applied at concrete
inputs, discharging their hypotheses there. -/
theorem c1_motor_invariant_witness :
    Inv (readSensorData none none 5 (setup 0)) ∧ Inv (setup 3) :=
  ⟨c1_motor_invariant.2.2.2.1 none none 5 (setup 0) (c1_motor_invariant.1 0),
   c1_motor_invariant.2.2.2.2 ⟨none, none, 0, 0⟩ .parseFailed (setup 3) (setup 3)
     [Output.msg errParseMsg] (c1_motor_invariant.1 3) rfl⟩

/-- C2: dispatching the parsed line `set_motor, speed 300, direction 1`
updates the state by `setMotor 300 1` — clamping the speed to 255 and setting
the running flag — and emits exactly the ack
`\x7b"response": "Motor state changed"\x7d`. -/
theorem c2_set_motor_clamps_to_255 :
    ∀ env st,
      processCommand env (.parsed docSetMotor300) st
          = some (setMotor 300 1 st, [.msg ackMotorMsg]) ∧
        (setMotor 300 1 st).sensorData.motorSpeed = 255 ∧
        (setMotor 300 1 st).sensorData.motorRunning = true :=
  fun _ _ => ⟨rfl, rfl, rfl⟩

/-- C3: on any line the JSON deserializer rejects, dispatch emits exactly the
error line `\x7b"error": "JSON parsing failed"\x7d` and returns the state
unchanged. -/
theorem c3_parse_error_is_atomic :
    ∀ env st, processCommand env .parseFailed st = some (st, [.msg errParseMsg]) :=
  fun _ _ => rfl

/-- C4: evaluating the dispatcher at a well-formed document with no `command`
member. `doc["command"]` converts to the null pointer and the source passes
it straight to `strcmp`, which is undefined behavior (the `none` result of
the model) — not the specified "Unknown command" error response. -/
theorem c4_missing_command_is_undefined_behavior :
    processCommand ⟨none, none, 0, 0⟩ (.parsed docNoCommand) (setup 0) = none := rfl

/-- C5 counterexample: the well-formed `set_led` line with the required
`state` field missing is not rejected with a MissingField error: the field
reads as 0, `setLED 0` is applied (pin 13 is driven), and the ordinary ack
`\x7b"response": "LED state changed"\x7d` is emitted. -/
theorem c5_missing_field_counterexample :
    processCommand ⟨none, none, 0, 0⟩ (.parsed docSetLedNoState) (setup 0)
        = some (setLED 0 (setup 0), [.msg ackLedMsg]) ∧
      (setLED 0 (setup 0)).pins.led13 = some 0 ∧
      ackLedMsg ≠ errParseMsg ∧ ackLedMsg ≠ errUnknownMsg :=
  ⟨rfl, rfl, by decide, by decide⟩

/-- C5 amended: a missing (or null) field reads as the integer default 0, and
the `set_led` / `set_motor` command is applied with that default and acked —
no MissingField error exists and no crash occurs. -/
theorem c5_missing_field_defaults_to_zero :
    (∀ doc key, List.lookup key doc = none → getInt doc key = 0) ∧
    (∀ env st doc, getStr doc "command" = some "set_led" →
        processCommand env (.parsed doc) st
          = some (setLED (getInt doc "state") st, [.msg ackLedMsg])) ∧
    (∀ env st doc, getStr doc "command" = some "set_motor" →
        processCommand env (.parsed doc) st
          = some (setMotor (getInt doc "speed") (getInt doc "direction") st,
                  [.msg ackMotorMsg])) := by
  refine ⟨?_, ?_, ?_⟩
  · intro doc key h
    unfold getInt
    rw [h]
  · intro env st doc h
    simp only [processCommand, h]
    simp
  · intro env st doc h
    simp only [processCommand, h]
    simp

/-- Witness for C5's amended theorem at the concrete field-less `set_led`
document. -/
theorem c5_missing_field_defaults_witness :
    getInt docSetLedNoState "state" = 0 ∧
    processCommand ⟨none, none, 1, 1⟩ (.parsed docSetLedNoState) (setup 1)
      = some (setLED (getInt docSetLedNoState "state") (setup 1), [.msg ackLedMsg]) :=
  ⟨c5_missing_field_defaults_to_zero.1 docSetLedNoState "state" rfl,
   c5_missing_field_defaults_to_zero.2.1 ⟨none, none, 1, 1⟩ (setup 1) docSetLedNoState rfl⟩

/-- C6 counterexample: the end-to-end line `set_motor, speed 100, direction 0`
does reset the state to stopped, but it is acked with
`\x7b"response": "Motor state changed"\x7d`, not with the claimed
`\x7b"response": "Motor stopped"\x7d`. -/
theorem c6_direction_zero_counterexample :
    processCommand ⟨none, none, 0, 0⟩ (.parsed docSetMotorDir0) (setup 0)
        = some (stopMotor (setup 0), [.msg ackMotorMsg]) ∧
      ackMotorMsg ≠ ackStopMsg :=
  ⟨rfl, by decide⟩

/-- C6 amended: for every speed, `setMotor` with direction 0 leaves the device
state (pins included) identical to `stopMotor`, and the end-to-end
`set_motor, speed 100, direction 0` line yields the stopped state with the
ack `\x7b"response": "Motor state changed"\x7d`. -/
theorem c6_direction_zero_equals_stop :
    (∀ s st, setMotor s 0 st = stopMotor st) ∧
    (∀ env st, processCommand env (.parsed docSetMotorDir0) st
        = some (stopMotor st, [.msg ackMotorMsg])) :=
  ⟨fun _ _ => rfl, fun _ _ => rfl⟩

/-- C7: the framer's cursor stays within `[0, BUFFER_SIZE]` over any fed byte
sequence; a newline emits the accumulated line and resets the cursor; any
other byte is appended while `bufferIndex < BUFFER_SIZE - 1` and is silently
dropped once the buffer is full, with accumulation continuing. -/
theorem c7_framer_bounded :
    (∀ cs, (feedAll cs ⟨[]⟩).buf.length ≤ BUFFER_SIZE) ∧
    (∀ f, feed '\n' f = (⟨[]⟩, some f.buf)) ∧
    (∀ c f, c ≠ '\n' → f.buf.length < BUFFER_SIZE - 1 →
        feed c f = (⟨f.buf ++ [c]⟩, none)) ∧
    (∀ c f, c ≠ '\n' → ¬ f.buf.length < BUFFER_SIZE - 1 → feed c f = (f, none)) := by
  refine ⟨?_, ?_, ?_, ?_⟩
  · intro cs
    have h := feedAll_cursor_le cs ⟨[]⟩ (by simp)
    unfold BUFFER_SIZE at h ⊢
    omega
  · intro f
    simp [feed]
  · intro c f hc hlen
    unfold feed
    rw [if_neg hc, if_pos hlen]
  · intro c f hc hlen
    unfold feed
    rw [if_neg hc, if_neg hlen]

/-- Witness for C7: an appended byte on a non-full buffer and a dropped byte
on a full one. -/
theorem c7_framer_bounded_witness :
    feed 'a' ⟨[]⟩ = (⟨['a']⟩, none) ∧
    feed 'b' ⟨List.replicate 255 'x'⟩ = (⟨List.replicate 255 'x'⟩, none) :=
  ⟨c7_framer_bounded.2.2.1 'a' ⟨[]⟩ (by decide) (by decide),
   c7_framer_bounded.2.2.2 'b' ⟨List.replicate 255 'x'⟩ (by decide)
     (by simp only [List.length_replicate]; decide)⟩

/-- C8 counterexample: at `now - last_emit = 3000` exactly, the source's
strict comparison `millis() - lastSendTime > 3000` does not fire: no sample,
no emission, `lastSendTime` unchanged — the claimed `≥ 3000` trigger is
wrong at the boundary. -/
theorem c8_interval_boundary_counterexample :
    telemetryTick ⟨none, none, 3000, 0⟩ (setup 0) ⟨0⟩ = (setup 0, ⟨0⟩, none) := by
  unfold telemetryTick
  rw [if_neg (by decide)]

/-- C8 amended: on every tick where the unsigned 32-bit difference
`now - last_emit` is strictly greater than 3000 ms, the scheduler samples
(the same `readSensorData` as get_sensor_data), emits the sensor-data record
and sets `last_emit = now`; otherwise it does nothing; and the comparison
uses unsigned-difference arithmetic, which tolerates timer wraparound. -/
theorem c8_telemetry_tick :
    (∀ env st sched, usub env.now sched.lastSendTime > 3000 →
        telemetryTick env st sched
          = (readSensorData env.dhtTemp env.dhtHum env.now st, ⟨env.now⟩,
             some (.sensorData (readSensorData env.dhtTemp env.dhtHum env.now st).sensorData))) ∧
    (∀ env st sched, ¬ usub env.now sched.lastSendTime > 3000 →
        telemetryTick env st sched = (st, sched, none)) ∧
    (∀ a b, b ≤ a → a < UINT32_MOD → usub a b = a - b) ∧
    (∀ a b, a < b → b < UINT32_MOD → usub a b = a + UINT32_MOD - b) := by
  refine ⟨?_, ?_, ?_, ?_⟩
  · intro env st sched h
    unfold telemetryTick
    rw [if_pos h]
  · intro env st sched h
    unfold telemetryTick
    rw [if_neg h]
  · intro a b h1 h2
    unfold UINT32_MOD at h2
    unfold usub UINT32_MOD
    omega
  · intro a b h1 h2
    unfold UINT32_MOD at h2
    unfold usub UINT32_MOD
    omega

/-- Witness for C8's amended theorem: a firing tick at `now = 3001`, and the
unsigned difference agreeing with ordinary subtraction on unwrapped values. -/
theorem c8_telemetry_tick_witness :
    telemetryTick ⟨none, none, 3001, 0⟩ (setup 0) ⟨0⟩
        = (readSensorData none none 3001 (setup 0), ⟨3001⟩,
           some (.sensorData (readSensorData none none 3001 (setup 0)).sensorData)) ∧
      usub 5 3 = 5 - 3 :=
  ⟨c8_telemetry_tick.1 ⟨none, none, 3001, 0⟩ (setup 0) ⟨0⟩ (by decide),
   c8_telemetry_tick.2.2.1 5 3 (by decide) (by decide)⟩

/-- C9: the sample step always completes; each reading independently becomes
the fresh value or the sentinel -999 when unavailable, the motor fields are
untouched, and the status record's `dht22_connected` flag is true exactly when
neither stored reading equals the sentinel. -/
theorem c9_sensor_fault_degrades_one_field :
    (∀ t h now st, (readSensorData (some t) h now st).sensorData.temperature = t) ∧
    (∀ h now st, (readSensorData none h now st).sensorData.temperature = -999) ∧
    (∀ t u now st, (readSensorData t (some u) now st).sensorData.humidity = u) ∧
    (∀ t now st, (readSensorData t none now st).sensorData.humidity = -999) ∧
    (∀ t h now st,
        (readSensorData t h now st).sensorData.motorSpeed = st.sensorData.motorSpeed ∧
        (readSensorData t h now st).sensorData.motorRunning = st.sensorData.motorRunning ∧
        (readSensorData t h now st).sensorData.timestamp = now) ∧
    (∀ now fm st, (sendStatus now fm st).dht22_connected = true ↔
        (st.sensorData.temperature ≠ -999 ∧ st.sensorData.humidity ≠ -999)) ∧
    (∀ t u now now2 fm st, t ≠ -999 → u ≠ -999 →
        (sendStatus now2 fm (readSensorData (some t) (some u) now st)).dht22_connected = true) ∧
    (∀ h now now2 fm st,
        (sendStatus now2 fm (readSensorData none h now st)).dht22_connected = false) := by
  refine ⟨fun _ _ _ _ => rfl, fun _ _ _ => rfl, fun _ _ _ _ => rfl, fun _ _ _ => rfl,
          fun _ _ _ _ => ⟨rfl, rfl, rfl⟩, ?_, ?_, ?_⟩
  · intro now fm st
    simp [sendStatus]
  · intro t u now now2 fm st ht hu
    simp [sendStatus, readSensorData, ht, hu]
  · intro h now now2 fm st
    simp [sendStatus, readSensorData]

/-- Witness for C9 at concrete healthy readings. -/
theorem c9_sensor_fault_witness :
    (sendStatus 7 42 (readSensorData (some 25) (some 60) 5 (setup 0))).dht22_connected = true :=
  c9_sensor_fault_degrades_one_field.2.2.2.2.2.2.1 25 60 5 7 42 (setup 0)
    (by decide) (by decide)

/-- C10: any direction outside \x7b-1, 0, 1\x7d other than 0 and 1 (for
example 2 or -5) is not rejected: `setMotor` drives the reverse pin
configuration, sets PWM to the clamped speed, and updates the state exactly as
for direction -1. -/
theorem c10_nonunit_direction_is_reverse :
    ∀ s d st, d ≠ 0 → d ≠ 1 →
      setMotor s d st = setMotor s (-1) st ∧
      (setMotor s d st).pins.motorPin1 = false ∧
      (setMotor s d st).pins.motorPin2 = true ∧
      (setMotor s d st).pins.motorEnablePwm = constrain s 0 255 ∧
      (setMotor s d st).sensorData.motorSpeed = constrain s 0 255 ∧
      (setMotor s d st).sensorData.motorRunning = decide (constrain s 0 255 > 0) := by
  intro s d st h0 h1
  simp [setMotor, if_neg h0, if_neg h1]

/-- Witness for C10 at speed 100, direction 2. -/
theorem c10_nonunit_direction_witness :
    setMotor 100 2 (setup 0) = setMotor 100 (-1) (setup 0) ∧
    (setMotor 100 2 (setup 0)).pins.motorPin1 = false ∧
    (setMotor 100 2 (setup 0)).pins.motorPin2 = true ∧
    (setMotor 100 2 (setup 0)).pins.motorEnablePwm = constrain 100 0 255 ∧
    (setMotor 100 2 (setup 0)).sensorData.motorSpeed = constrain 100 0 255 ∧
    (setMotor 100 2 (setup 0)).sensorData.motorRunning = decide (constrain 100 0 255 > 0) :=
  c10_nonunit_direction_is_reverse 100 2 (setup 0) (by decide) (by decide)

end Firmware
